import Mathlib

/-!
Shallow embedding of the `top-songs-dashboard` event-simulation core
(`src/top_songs/ingestion/...`) and verification of its specification.

Conventions of the embedding:
* Python `datetime` values are modelled as rational numbers of seconds
  (`ℚ`), so `timedelta` addition is `+` and `total_seconds` is subtraction.
* Python float arithmetic is modelled exactly over `ℚ`.
* Randomness (`random.choice`, `random.randint`, `uuid.uuid4`,
  `faker.random_element`) is modelled by an explicit oracle argument: the
  oracle supplies the draw, and the embedded code maps it into the same
  range the Python call would produce.
* A Python function that can raise returns `Except PyError`.
* File and network I/O is out of the embedded state: the `EventFactory`
  is modelled by its three in-memory collections (what
  `_load_csv_or_json` produced), and HTTP transports / the Kafka producer
  are modelled as outcome functions indexed by call number.
-/

namespace TopSongs

/-- A raised Python exception, identified by its type and message. -/
inductive PyError where
  | valueError (msg : String)
deriving DecidableEq, Repr

/-- Model of `SongMasterData` (src/top_songs/core/models/simulator_models.py).
Dates carry no arithmetic in the embedded code, so `release_date` is kept
as its ISO string. -/
structure SongMasterData where
  song_id : String
  title : String
  artist_name : String
  album_name : String
  genre : String
  duration_ms : Int
  release_date : String
deriving DecidableEq, Repr

/-- Model of `UserMasterData` (src/top_songs/core/models/simulator_models.py). -/
structure UserMasterData where
  user_id : String
  username : String
  email : String
  registration_date : String
  country : String
deriving DecidableEq, Repr

/-- Model of `LocationMasterData` (src/top_songs/core/models/simulator_models.py). -/
structure LocationMasterData where
  location_id : String
  city : String
  country_code : String
  latitude : ℚ
  longitude : ℚ
deriving DecidableEq, Repr

/-- Model of `PlayEventData` (src/top_songs/core/models/simulator_models.py). -/
structure PlayEventData where
  event_id : String
  song_id : String
  user_id : String
  location_id : String
  played_at : ℚ
  play_duration_ms : Int
  device_type : String
deriving DecidableEq, Repr

instance : Inhabited SongMasterData :=
  ⟨⟨"", "", "", "", "", 0, ""⟩⟩

instance : Inhabited UserMasterData :=
  ⟨⟨"", "", "", "", ""⟩⟩

instance : Inhabited LocationMasterData :=
  ⟨⟨"", "", "", 0, 0⟩⟩

/-- Python `random.randint(a, b)`: a uniform integer in `[a, b]`; raises
`ValueError` when the range is empty (`b < a`).  The oracle value `r` is
mapped into the range, so every value of `[a, b]` is reachable and no
other value is. -/
def randint (a b : Int) (r : Nat) : Except PyError Int :=
  if b < a then
    .error (.valueError ("empty range in randrange(" ++ toString a ++ ", " ++
      toString (b + 1) ++ ")"))
  else
    .ok (a + (r : Int) % (b - a + 1))

/-- Python `random.choice(l)` / `faker.random_element(l)` on a non-empty
list: the oracle index is reduced mod the length, so exactly the elements
of `l` are reachable.  (The callers below only reach this after checking
non-emptiness, matching the source.) -/
def pychoice {α : Type} [Inhabited α] (l : List α) (r : Nat) : α :=
  l.getD (r % l.length) default

/-- One batch of random draws consumed by a single
`EventFactory.create_event` call: the three `random.choice` indices, the
`random.randint` draw, the `faker.random_element` device index, and the
fresh `uuid.uuid4()` string. -/
structure RandOracle where
  songR : Nat
  userR : Nat
  locR : Nat
  durR : Nat
  deviceR : Nat
  uuidR : String
deriving Repr

/-- Model of `EventFactory` (src/top_songs/ingestion/simulator/event_factory.py)
after construction: the three collections `_load_csv_or_json` loaded. -/
structure EventFactory where
  songs : List SongMasterData
  users : List UserMasterData
  locations : List LocationMasterData
deriving Repr

/-- The message of the empty-reference-data `ValueError` raised by
`EventFactory.create_event`. -/
def emptyMasterDataMsg : String :=
  "Master data is empty. Please provide non-empty songs, users, and locations data."

/-- Embedding of `EventFactory.create_event(played_at)`
(src/top_songs/ingestion/simulator/event_factory.py, lines 43-68).
`now` is the value `datetime.now(UTC)` would return, used when
`played_at` is `none`. -/
def EventFactory.create_event (f : EventFactory) (played_at : Option ℚ)
    (now : ℚ) (r : RandOracle) : Except PyError PlayEventData :=
  if f.songs.isEmpty || f.users.isEmpty || f.locations.isEmpty then
    .error (.valueError emptyMasterDataMsg)
  else
    let song := pychoice f.songs r.songR
    let user := pychoice f.users r.userR
    let location := pychoice f.locations r.locR
    match randint 10000 song.duration_ms r.durR with
    | .error e => .error e
    | .ok play_duration_ms =>
      let device_type := pychoice ["mobile", "desktop", "tablet"] r.deviceR
      .ok { event_id := r.uuidR
            song_id := song.song_id
            user_id := user.user_id
            location_id := location.location_id
            played_at := played_at.getD now
            play_duration_ms := play_duration_ms
            device_type := device_type }

/-- Loop body of `generate_historical_events`
(src/top_songs/ingestion/simulator/simulation_engine.py, lines 7-33):
for each remaining index `i`, compute
`offset = total_seconds * (i / volume)` and create an event at
`start_datetime + offset`; a raised exception aborts the loop. -/
def generate_historical_go (f : EventFactory) (start_dt : ℚ) (total_seconds : ℚ)
    (volume : Int) (now : ℚ) (oracle : Nat → RandOracle) :
    List Nat → Except PyError (List PlayEventData)
  | [] => .ok []
  | i :: rest =>
    match f.create_event (some (start_dt + total_seconds * ((i : ℚ) / (volume : ℚ))))
        now (oracle i) with
    | .error e => .error e
    | .ok ev =>
      match generate_historical_go f start_dt total_seconds volume now oracle rest with
      | .error e => .error e
      | .ok evs => .ok (ev :: evs)

/-- Embedding of `generate_historical_events(event_factory, start_datetime, end_datetime, volume)`
(src/top_songs/ingestion/simulator/simulation_engine.py, lines 7-33).
`total_seconds = (end - start).total_seconds()`; the loop runs over
`range(volume)` (empty for `volume <= 0`, like Python's `range`). -/
def generate_historical_events (f : EventFactory) (start_dt end_dt : ℚ)
    (volume : Int) (now : ℚ) (oracle : Nat → RandOracle) :
    Except PyError (List PlayEventData) :=
  generate_historical_go f start_dt (end_dt - start_dt) volume now oracle
    (List.range volume.toNat)

/-- The inter-event sleep of `generate_live_events`
(src/top_songs/ingestion/simulator/simulation_engine.py, line 53):
`60.0 / volume_per_minute if volume_per_minute > 0 else 1.0`. -/
def live_interval (volume_per_minute : Int) : ℚ :=
  if 0 < volume_per_minute then 60 / (volume_per_minute : ℚ) else 1

/-- The loop-exit test of `generate_live_events`
(src/top_songs/ingestion/simulator/simulation_engine.py, line 57):
`duration_seconds > 0 and (now - start_time) >= duration_seconds`. -/
def live_should_stop (duration_seconds : Int) (start_time now : ℚ) : Bool :=
  decide (0 < duration_seconds) && decide ((duration_seconds : ℚ) ≤ now - start_time)

/-- Embedding of `generate_live_events(event_factory, volume_per_minute, duration_seconds)`
(src/top_songs/ingestion/simulator/simulation_engine.py, lines 35-61),
viewed through its pull semantics.  `start_time` is the generator's
initial `time.time()` sample and `clock j` the sample taken at the top of
iteration `j`; pulling item `n` succeeds exactly when no iteration
`j ≤ n` has hit the exit test, and then yields the event created at
iteration `n` (timestamped with that iteration's clock sample).
`volume_per_minute` only controls the sleep (`live_interval`), not which
items exist. -/
def generate_live_events (f : EventFactory) (volume_per_minute duration_seconds : Int)
    (start_time : ℚ) (clock : Nat → ℚ) (oracle : Nat → RandOracle) (n : Nat) :
    Option (Except PyError PlayEventData) :=
  if (List.range (n + 1)).all
      (fun j => !(live_should_stop duration_seconds start_time (clock j))) then
    some (f.create_event (some (clock n)) (clock n) (oracle n))
  else
    none

/-- Python `range(a, b)` over integers. -/
def pyRange (a b : Int) : List Int :=
  (List.range (b - a).toNat).map (fun (k : Nat) => a + (k : Int))

/-- Retry loop of `APIPoster.post_event`
(src/top_songs/ingestion/simulator/api_poster.py, lines 23-46) over the
remaining attempt numbers.  `transport calls` is the outcome of the
`calls`-th actual HTTP request (counting from 0): `true` when
`httpx.post` returned and `raise_for_status` passed, `false` when any
exception was raised (transport error or non-2xx).  Returns the Python
return value (`none` models falling off the loop, i.e. `None`) together
with the number of attempts performed. -/
def post_event_go (transport : Nat → Bool) (max_retries : Int) :
    List Int → Nat → Option Bool × Nat
  | [], calls => (none, calls)
  | attempt :: rest, calls =>
    if transport calls then (some true, calls + 1)
    else if attempt = max_retries then (some false, calls + 1)
    else post_event_go transport max_retries rest (calls + 1)

/-- Embedding of `APIPoster.post_event(event, timeout)`
(src/top_songs/ingestion/simulator/api_poster.py, lines 23-46): iterates
`for attempt in range(1, max_retries + 1)` over the transport.  The
event body and timeout do not influence control flow, which is fully
determined by `max_retries` and the per-attempt outcomes. -/
def APIPoster.post_event (max_retries : Int) (transport : Nat → Bool) :
    Option Bool × Nat :=
  post_event_go transport max_retries (pyRange 1 (max_retries + 1)) 0

/-- An HTTP response produced by the ingestion API. -/
inductive ApiResponse where
  | success (status : Nat) (event_id : String) (message : String)
  | failure (status : Nat) (detail : String)
deriving DecidableEq, Repr

/-- Embedding of `post_play_event(event)` (src/top_songs/ingestion/api/app.py,
lines 20-30).  `produce k` is the outcome of the `k`-th
`kafka.produce` call in the request (`.ok` = accepted, `.error msg` = the
raised exception's message).  Returns the response together with the
number of `produce` calls made — the handler calls it exactly once and
never retries. -/
def post_play_event (event : PlayEventData)
    (produce : Nat → Except String Unit) : ApiResponse × Nat :=
  match produce 0 with
  | .ok _ => (.success 201 event.event_id "Play event received", 1)
  | .error _ => (.failure 500 "Failed to forward event to Kafka.", 1)

/-- Embedding of `chunk_size = (len(events) + threads - 1) // threads`
(src/top_songs/ingestion/simulator/commands.py, line 85). -/
def chunk_size (n threads : Nat) : Nat :=
  (n + threads - 1) / threads

/-- The chunks `events[i*chunk_size : (i+1)*chunk_size]` for
`i in range(threads)` handed to the historical workers
(src/top_songs/ingestion/simulator/commands.py, lines 85-89); each worker
posts its chunk sequentially in list order. -/
def dispatcher_chunks {α : Type} (events : List α) (threads : Nat) : List (List α) :=
  (List.range threads).map fun i =>
    (events.drop (i * chunk_size events.length threads)).take
      (chunk_size events.length threads)

/-- Python truthiness of an optional string parameter (`None` and `""`
are falsy). -/
def strTruthy : Option String → Bool
  | none => false
  | some s => !s.isEmpty

/-- Outcome of one `run_simulation_command` invocation.
`configError msg` models `logger.error(msg); return` (an abort before
any worker is started and before any event is generated);
`raised e` models an exception escaping the function;
`historicalDone cs` models a completed historical run whose workers were
handed the chunks `cs`, each delivered sequentially in order;
`liveDone ws` models a completed live run in which worker `i` iterated
`generate_live_events` with `(volume_per_minute, duration_seconds) = ws[i]`. -/
inductive SimOutcome where
  | configError (msg : String)
  | raised (e : PyError)
  | historicalDone (cs : List (List PlayEventData))
  | liveDone (ws : List (Int × Int))
deriving DecidableEq, Repr

/-- Message of the historical-mode missing-parameters configuration error
(src/top_songs/ingestion/simulator/commands.py, line 79). -/
def missingDatetimesMsg : String :=
  "--start-datetime and --end-datetime are required for historical mode."

/-- Message of the no-mode configuration error
(src/top_songs/ingestion/simulator/commands.py, line 109). -/
def noModeMsg : String :=
  "Please specify either --historical or --live mode."

/-- Embedding of `run_simulation_command(...)`
(src/top_songs/ingestion/simulator/commands.py, lines 53-109).
`fromisoformat` stands for the library function
`datetime.fromisoformat` (an external collaborator: it returns the
parsed timestamp or raises `ValueError` on a malformed string), and
`event_factory` for the collections that `EventFactory(master_data_dir,
format)` loaded.  `posting_rate` is accepted, as in the source, and read
nowhere. -/
def run_simulation_command (threads : Nat) (volume : Int)
    (historical live : Bool) (start_datetime end_datetime : Option String)
    (posting_rate : ℚ) (duration_seconds : Int)
    (fromisoformat : String → Except PyError ℚ) (event_factory : EventFactory)
    (now : ℚ) (oracle : Nat → RandOracle) : SimOutcome :=
  if historical then
    if !strTruthy start_datetime || !strTruthy end_datetime then
      .configError missingDatetimesMsg
    else
      match fromisoformat (start_datetime.getD ""), fromisoformat (end_datetime.getD "") with
      | .error e, _ => .raised e
      | .ok _, .error e => .raised e
      | .ok start_dt, .ok end_dt =>
        match generate_historical_events event_factory start_dt end_dt volume now oracle with
        | .error e => .raised e
        | .ok events => .historicalDone (dispatcher_chunks events threads)
  else if live then
    .liveDone (List.replicate threads (volume, duration_seconds))
  else
    .configError noModeMsg

/-! Section: Concrete exemplar data for witnesses and counterexamples -/

/-- A song shorter than ten seconds (5000 ms): well-typed master data the
factory will happily load, but outside the `randint(10000, ...)` range. -/
def shortSong : SongMasterData :=
  { song_id := "song-short", title := "Tiny", artist_name := "A",
    album_name := "Al", genre := "pop", duration_ms := 5000,
    release_date := "2020-01-01" }

/-- A three-second song used for the second short-song state. -/
def shorterSong : SongMasterData :=
  { song_id := "song-3s", title := "Blip", artist_name := "B",
    album_name := "Bl", genre := "rock", duration_ms := 3000,
    release_date := "2021-06-01" }

/-- An ordinary 200-second song, as in the repository's test fixtures. -/
def normalSong : SongMasterData :=
  { song_id := "song0", title := "title0", artist_name := "artist0",
    album_name := "album0", genre := "pop", duration_ms := 200000,
    release_date := "2020-01-01" }

/-- A sample user record. -/
def sampleUser : UserMasterData :=
  { user_id := "user0", username := "user0", email := "user0@x.com",
    registration_date := "2020-01-01", country := "US" }

/-- A sample location record. -/
def sampleLocation : LocationMasterData :=
  { location_id := "loc0", city := "city0", country_code := "US",
    latitude := 0, longitude := 0 }

/-- A factory whose only song is shorter than ten seconds; all three
collections are non-empty. -/
def shortFactory : EventFactory :=
  { songs := [shortSong], users := [sampleUser], locations := [sampleLocation] }

/-- A second non-empty factory with a three-second song. -/
def shorterFactory : EventFactory :=
  { songs := [shorterSong], users := [sampleUser], locations := [sampleLocation] }

/-- A factory with ordinary data, as the repository's tests build. -/
def okFactory : EventFactory :=
  { songs := [normalSong], users := [sampleUser], locations := [sampleLocation] }

/-- A fixed oracle stream for concrete runs. -/
def oracleEx : Nat → RandOracle :=
  fun n => { songR := n, userR := n, locR := n, durR := n, deviceR := n,
             uuidR := "uuid-" ++ toString n }

/-- A concrete clock trace: iteration `j` samples `time.time()` at
`j` seconds after the epoch of the run. -/
def clockEx : Nat → ℚ :=
  fun j => (j : ℚ)

/-- A concrete play event, as the repository's API tests build. -/
def sampleEvent : PlayEventData :=
  { event_id := "e1", song_id := "s1", user_id := "u1", location_id := "l1",
    played_at := 1672531200, play_duration_ms := 1000, device_type := "mobile" }

/-- A concrete exemplar of `datetime.fromisoformat`: parses the one
timestamp used in the concrete runs and raises `ValueError` on anything
else, as the library function does on a malformed string. -/
def fromisoEx : String → Except PyError ℚ :=
  fun s =>
    if s = "2023-01-01T00:00:00" then .ok 1672531200
    else if s = "2023-01-01T01:00:00" then .ok 1672534800
    else .error (.valueError ("Invalid isoformat string: " ++ s))

/-! Section: Helper lemmas -/

/-- Choice from a non-empty list: `pychoice` returns one of its elements. -/
theorem pychoice_mem {α : Type} [Inhabited α] (l : List α) (r : Nat)
    (h : l ≠ []) : pychoice l r ∈ l := by
  have hlen : 0 < l.length := List.length_pos.mpr h
  have hlt : r % l.length < l.length := Nat.mod_lt _ hlen
  rw [pychoice, List.getD_eq_getElem _ _ hlt]
  exact List.getElem_mem hlt

/-- Evaluation of `randint` on a non-empty range: returns a value inside the range. -/
theorem randint_ok (a b : Int) (r : Nat) (h : a ≤ b) :
    ∃ v, randint a b r = .ok v ∧ a ≤ v ∧ v ≤ b := by
  refine ⟨a + (r : Int) % (b - a + 1), ?_, ?_, ?_⟩
  · rw [randint, if_neg (not_lt.mpr h)]
  · have := Int.emod_nonneg (r : Int) (by omega : b - a + 1 ≠ 0)
    omega
  · have := Int.emod_lt_of_pos (r : Int) (by omega : 0 < b - a + 1)
    omega

/-- When all three collections are non-empty and the chosen song lasts at
least ten seconds, `create_event` succeeds, stamps the requested
timestamp, and keeps the play duration inside `[10000, song.duration_ms]`. -/
theorem create_event_ok (f : EventFactory) (pa : Option ℚ) (now : ℚ)
    (r : RandOracle) (hs : f.songs ≠ []) (hu : f.users ≠ [])
    (hl : f.locations ≠ [])
    (hdur : (10000 : Int) ≤ (pychoice f.songs r.songR).duration_ms) :
    ∃ ev, f.create_event pa now r = .ok ev ∧ ev.played_at = pa.getD now ∧
      (10000 : Int) ≤ ev.play_duration_ms ∧
      ev.play_duration_ms ≤ (pychoice f.songs r.songR).duration_ms := by
  obtain ⟨v, hv, hv1, hv2⟩ := randint_ok 10000 (pychoice f.songs r.songR).duration_ms r.durR hdur
  have hcond : (f.songs.isEmpty || f.users.isEmpty || f.locations.isEmpty) = false := by
    simp [List.isEmpty_iff, hs, hu, hl]
  refine ⟨{ event_id := r.uuidR, song_id := (pychoice f.songs r.songR).song_id,
            user_id := (pychoice f.users r.userR).user_id,
            location_id := (pychoice f.locations r.locR).location_id,
            played_at := pa.getD now, play_duration_ms := v,
            device_type := pychoice ["mobile", "desktop", "tablet"] r.deviceR },
         ?_, rfl, hv1, hv2⟩
  rw [EventFactory.create_event]
  simp only [hcond, Bool.false_eq_true, if_false, hv]

/-! Section: C1 and C2: `EventFactory.create_event` -/

/-- Claim C1: the spec mandates that a song shorter than ten seconds
still yields a valid event, with the lower bound of the uniform draw
clamped to the song's duration.  The code instead raises: on a factory
whose collections are all non-empty but whose selected song lasts
5000 ms, `create_event` raises `ValueError` from
`random.randint(10000, 5000)` (an empty range) and produces no event. -/
theorem create_event_short_song_raises :
    shortFactory.create_event (some 0) 0 (oracleEx 0) =
      .error (.valueError "empty range in randrange(10000, 5001)") ∧
    shortFactory.songs ≠ [] ∧ shortFactory.users ≠ [] ∧
    shortFactory.locations ≠ [] := by
  refine ⟨?_, by decide, by decide, by decide⟩
  rfl

/-- Claim C2: the empty-collection error is claimed to be the only error
condition of `create_event`.  On a state whose three collections are all
non-empty but whose selected song lasts 3000 ms, `create_event` still
raises, and the raised error is not the empty-reference-data error. -/
theorem create_event_nonempty_still_raises :
    shorterFactory.create_event (some 0) 0 (oracleEx 1) =
      .error (.valueError "empty range in randrange(10000, 3001)") ∧
    PyError.valueError "empty range in randrange(10000, 3001)" ≠
      .valueError emptyMasterDataMsg ∧
    shorterFactory.songs ≠ [] ∧ shorterFactory.users ≠ [] ∧
    shorterFactory.locations ≠ [] := by
  refine ⟨?_, by decide, by decide, by decide, by decide⟩
  rfl

/-! Section: C3: `generate_historical_events` -/

/-- Behaviour of the historical loop on an arbitrary index list, when
every `create_event` call succeeds: it returns one event per index, each
stamped `start + total_seconds * (i / volume)`. -/
theorem generate_historical_go_ok (f : EventFactory) (start_dt total_seconds : ℚ)
    (volume : Int) (now : ℚ) (oracle : Nat → RandOracle)
    (hs : f.songs ≠ []) (hu : f.users ≠ []) (hl : f.locations ≠ [])
    (hdur : ∀ s ∈ f.songs, (10000 : Int) ≤ s.duration_ms) :
    ∀ l : List Nat, ∃ evs,
      generate_historical_go f start_dt total_seconds volume now oracle l = .ok evs ∧
      evs.length = l.length ∧
      ∀ k (hk : k < l.length) (hk' : k < evs.length),
        (evs.get ⟨k, hk'⟩).played_at =
          start_dt + total_seconds * (((l.get ⟨k, hk⟩ : Nat) : ℚ) / (volume : ℚ)) := by
  intro l
  induction l with
  | nil => exact ⟨[], rfl, rfl, fun k hk => absurd hk (Nat.not_lt_zero k)⟩
  | cons i rest ih =>
    obtain ⟨evs, hevs, hlen, hget⟩ := ih
    obtain ⟨ev, hev, hpa, -, -⟩ :=
      create_event_ok f (some (start_dt + total_seconds * ((i : ℚ) / (volume : ℚ))))
        now (oracle i) hs hu hl (hdur _ (pychoice_mem f.songs (oracle i).songR hs))
    refine ⟨ev :: evs, ?_, by simp [hlen], ?_⟩
    · rw [generate_historical_go, hev, hevs]
    · intro k hk hk'
      match k with
      | 0 => simpa using hpa
      | Nat.succ m =>
        simp only [List.get_cons_succ]
        exact hget m (by simpa using hk) (by simp at hk' ⊢; omega)

/-- Claim C3: for every `volume ≥ 0` (and reference data on which event
creation succeeds), `generate_historical_events` returns exactly
`volume` events; the event at index `i` is stamped
`start + (end - start) * (i / volume)`; `volume = 0` yields the empty
list; and when `start < end` the timestamps are non-decreasing with the
first event stamped exactly `start`. -/
theorem generate_historical_events_spec (f : EventFactory)
    (start_dt end_dt : ℚ) (volume : Int) (now : ℚ) (oracle : Nat → RandOracle)
    (hvol : 0 ≤ volume) (hs : f.songs ≠ []) (hu : f.users ≠ [])
    (hl : f.locations ≠ [])
    (hdur : ∀ s ∈ f.songs, (10000 : Int) ≤ s.duration_ms) :
    ∃ evs,
      generate_historical_events f start_dt end_dt volume now oracle = .ok evs ∧
      evs.length = volume.toNat ∧
      (∀ k (hk : k < evs.length),
        (evs.get ⟨k, hk⟩).played_at =
          start_dt + (end_dt - start_dt) * ((k : ℚ) / (volume : ℚ))) ∧
      (volume = 0 → evs = []) ∧
      (start_dt < end_dt →
        evs.Pairwise (fun a b => a.played_at ≤ b.played_at) ∧
        ∀ h0 : 0 < evs.length, (evs.get ⟨0, h0⟩).played_at = start_dt) := by
  obtain ⟨evs, hevs, hlen, hget⟩ :=
    generate_historical_go_ok f start_dt (end_dt - start_dt) volume now oracle
      hs hu hl hdur (List.range volume.toNat)
  rw [List.length_range] at hlen
  have hstamp : ∀ k (hk : k < evs.length),
      (evs.get ⟨k, hk⟩).played_at =
        start_dt + (end_dt - start_dt) * ((k : ℚ) / (volume : ℚ)) := by
    intro k hk
    have hk' : k < (List.range volume.toNat).length := by
      rw [List.length_range]; omega
    have := hget k hk' hk
    rwa [List.get_range] at this
  refine ⟨evs, hevs, hlen, hstamp, ?_, ?_⟩
  · intro h0
    apply List.length_eq_zero.mp
    rw [hlen, h0]; rfl
  · intro hlt
    have htot : (0 : ℚ) ≤ end_dt - start_dt := by linarith
    constructor
    · rw [List.pairwise_iff_get]
      intro i j hij
      rw [hstamp i.val i.isLt, hstamp j.val j.isLt]
      have hpos : 0 < evs.length := j.pos
      have hv : (0 : ℚ) ≤ (volume : ℚ) := by exact_mod_cast hvol
      have hij' : ((i.val : ℚ)) ≤ ((j.val : ℚ)) := by
        have hn : i.val < j.val := hij
        exact_mod_cast Nat.le_of_lt hn
      have hdiv : ((i.val : ℚ) / (volume : ℚ)) ≤ ((j.val : ℚ) / (volume : ℚ)) :=
        div_le_div_of_nonneg_right hij' hv
      have := mul_le_mul_of_nonneg_left hdiv htot
      linarith
    · intro h0
      rw [hstamp 0 h0]
      simp

/-- Witness for C3: five events over the repository's test hour. -/
theorem generate_historical_events_spec_witness :
    (generate_historical_events okFactory 1672531200 1672534800 5 0 oracleEx).isOk = true := by
  obtain ⟨evs, hevs, -, -, -, -⟩ :=
    generate_historical_events_spec okFactory 1672531200 1672534800 5 0 oracleEx
      (by decide) (by decide) (by decide) (by decide) (by decide)
  rw [hevs]
  rfl

/-! Section: C4 and C9: `APIPoster.post_event` -/

/-- Unfolding: `pyRange a b` is `a` followed by `pyRange (a+1) b` when `a < b`. -/
theorem pyRange_cons (a b : Int) (h : a < b) :
    pyRange a b = a :: pyRange (a + 1) b := by
  have hn : (b - a).toNat = (b - (a + 1)).toNat + 1 := by omega
  rw [pyRange, hn, List.range_succ_eq_map, List.map_cons, List.map_map, pyRange]
  refine List.cons_eq_cons.mpr ⟨by norm_num, ?_⟩
  refine List.map_congr_left fun k _ => ?_
  simp only [Function.comp_apply]
  push_cast
  ring

/-- Unfolding: `pyRange a b` is empty when `b ≤ a`. -/
theorem pyRange_nil (a b : Int) (h : b ≤ a) : pyRange a b = [] := by
  rw [pyRange]
  have : (b - a).toNat = 0 := by omega
  rw [this]
  rfl

/-- When every attempt fails, the retry loop over `pyRange a (m+1)`
(with `a ≤ m`) returns `False` after consuming every remaining attempt. -/
theorem post_go_all_fail (transport : Nat → Bool) (m : Int)
    (hf : ∀ k, transport k = false) :
    ∀ (n : Nat) (a : Int) (c : Nat), a ≤ m → (m - a).toNat = n →
      post_event_go transport m (pyRange a (m + 1)) c =
        (some false, c + n + 1) := by
  intro n
  induction n with
  | zero =>
    intro a c ha hn
    have haeq : a = m := by omega
    subst haeq
    rw [pyRange_cons a (a + 1) (by omega), pyRange_nil (a + 1) (a + 1) le_rfl,
      post_event_go, hf c, if_neg (by simp), if_pos rfl]
  | succ n ih =>
    intro a c ha hn
    have halt : a < m := by omega
    rw [pyRange_cons a (m + 1) (by omega), post_event_go, hf c,
      if_neg (by simp), if_neg (by omega : ¬ a = m),
      ih (a + 1) (c + 1) (by omega) (by omega)]
    refine congrArg (fun x => ((some false : Option Bool), x)) ?_
    omega

/-- When the first transport success is the `k`-th call made inside the
loop (`k` strictly below the number of remaining attempts), the retry
loop returns `True` after `k + 1` calls. -/
theorem post_go_first_success (transport : Nat → Bool) (m : Int) :
    ∀ (k : Nat) (a : Int) (c : Nat),
      (∀ j, j < k → transport (c + j) = false) → transport (c + k) = true →
      (k : Int) < m + 1 - a → a ≤ m →
      post_event_go transport m (pyRange a (m + 1)) c =
        (some true, c + k + 1) := by
  intro k
  induction k with
  | zero =>
    intro a c _ hsucc _ ha
    rw [pyRange_cons a (m + 1) (by omega), post_event_go]
    rw [Nat.add_zero] at hsucc
    rw [hsucc, if_pos rfl]
  | succ k ih =>
    intro a c hfail hsucc hk ha
    have halt : a < m := by omega
    have h0 : transport c = false := by
      have := hfail 0 (Nat.succ_pos k)
      rwa [Nat.add_zero] at this
    rw [pyRange_cons a (m + 1) (by omega), post_event_go,
      h0, if_neg (by simp),
      if_neg (by omega : ¬ a = m),
      ih (a + 1) (c + 1) (fun j hj => by
          have := hfail (j + 1) (by omega)
          rwa [show c + (j + 1) = c + 1 + j by omega] at this)
        (by rwa [show c + 1 + k = c + (k + 1) by omega])
        (by omega) (by omega)]
    refine congrArg (fun x => ((some true : Option Bool), x)) ?_
    omega

/-- Claim C4 (amended to `max_retries ≥ 1`; with `max_retries ≤ 0` the
loop body never runs and Python `None` comes back, as C9 records):
`post_event` never raises, and for
every `max_retries ≥ 1` it returns the failure boolean after performing
exactly `max_retries` attempts when every attempt fails, and the success
boolean after exactly `k + 1` attempts when the first transport success
is the `k`-th call (`k + 1 ≤ max_retries`).  No sleep separates the
attempts in the source loop. -/
theorem post_event_spec (max_retries : Int) (transport : Nat → Bool)
    (h : 1 ≤ max_retries) :
    ((∀ k, transport k = false) →
      APIPoster.post_event max_retries transport =
        (some false, max_retries.toNat)) ∧
    (∀ k, (∀ j, j < k → transport j = false) → transport k = true →
      k < max_retries.toNat →
      APIPoster.post_event max_retries transport = (some true, k + 1)) := by
  constructor
  · intro hf
    rw [APIPoster.post_event,
      post_go_all_fail transport max_retries hf (max_retries - 1).toNat 1 0
        (by omega) (by omega)]
    refine congrArg (fun x => ((some false : Option Bool), x)) ?_
    omega
  · intro k hfail hsucc hk
    have hrun := post_go_first_success transport max_retries k 1 0
      (fun j hj => by rw [Nat.zero_add]; exact hfail j hj)
      (by rw [Nat.zero_add]; exact hsucc) (by omega) (by omega)
    rw [APIPoster.post_event, hrun]
    simp

/-- Counterexample for C4 as stated: with `max_retries = 0` and a
transport that fails every attempt, `post_event` performs zero attempts
and returns Python `None` — not the failure boolean the claim promises
for every `max_retries`. -/
theorem post_event_zero_retries_not_boolean :
    APIPoster.post_event 0 (fun _ => false) = (none, 0) ∧
    (none : Option Bool) ≠ some false := by
  exact ⟨rfl, by decide⟩

/-- Witness for C4: three all-failing attempts yield `(False, 3)`; a
transport whose first success is its second call yields `(True, 2)`. -/
theorem post_event_spec_witness :
    APIPoster.post_event 3 (fun _ => false) = (some false, 3) ∧
    APIPoster.post_event 3 (fun k => decide (1 ≤ k)) = (some true, 2) := by
  refine ⟨(post_event_spec 3 (fun _ => false) (by decide)).1 (fun _ => rfl),
    (post_event_spec 3 (fun k => decide (1 ≤ k)) (by decide)).2 1 ?_ (by decide) (by decide)⟩
  intro j hj
  have hj0 : j = 0 := by omega
  subst hj0
  rfl

/-- Claim C9: constructed with `max_retries ≤ 0`, `post_event` performs
zero delivery attempts and returns Python's implicit `None`, which is
not a success/failure boolean. -/
theorem post_event_nonpositive_retries (max_retries : Int)
    (transport : Nat → Bool) (h : max_retries ≤ 0) :
    APIPoster.post_event max_retries transport = (none, 0) := by
  rw [APIPoster.post_event, pyRange_nil 1 (max_retries + 1) (by omega),
    post_event_go]

/-- Witness for C9 at `max_retries = 0`. -/
theorem post_event_nonpositive_retries_witness :
    APIPoster.post_event 0 (fun _ => true) = (none, 0) :=
  post_event_nonpositive_retries 0 (fun _ => true) (by decide)

/-! Section: C5: `generate_live_events` -/

/-- Claim C5: with `duration_seconds ≤ 0` the live generator never
terminates on its own — every pull succeeds; with
`duration_seconds > 0`, an item is emitted at iteration `n` only while
the elapsed wall-clock time `clock n - start_time` is still strictly
below the duration, so no event is emitted once
`start_time + duration_seconds` has elapsed. -/
theorem generate_live_events_termination (f : EventFactory)
    (volume_per_minute duration_seconds : Int) (start_time : ℚ)
    (clock : Nat → ℚ) (oracle : Nat → RandOracle) :
    (duration_seconds ≤ 0 → ∀ n,
      (generate_live_events f volume_per_minute duration_seconds start_time
        clock oracle n).isSome = true) ∧
    (0 < duration_seconds → ∀ n r,
      generate_live_events f volume_per_minute duration_seconds start_time
        clock oracle n = some r →
      clock n - start_time < (duration_seconds : ℚ)) := by
  constructor
  · intro hd n
    have hstop : ∀ x : ℚ, live_should_stop duration_seconds start_time x = false := by
      intro x
      rw [live_should_stop, decide_eq_false (by omega : ¬ 0 < duration_seconds),
        Bool.false_and]
    rw [generate_live_events,
      if_pos (List.all_eq_true.mpr fun j _ => by rw [hstop]; rfl)]
    rfl
  · intro hd n r hr
    by_contra hcl
    have hstop : live_should_stop duration_seconds start_time (clock n) = true := by
      rw [live_should_stop, decide_eq_true hd,
        decide_eq_true (by linarith : (duration_seconds : ℚ) ≤ clock n - start_time)]
      rfl
    by_cases hall : (List.range (n + 1)).all
        (fun j => !(live_should_stop duration_seconds start_time (clock j))) = true
    · have := List.all_eq_true.mp hall n (List.mem_range.mpr (by omega))
      rw [hstop] at this
      simp at this
    · rw [generate_live_events, if_neg hall] at hr
      exact Option.noConfusion hr

/-- Witness for C5: with zero duration the fourth pull still succeeds;
with a three-second duration, the item emitted at iteration 2 (two
seconds into the run on the exemplar clock) is indeed within the window. -/
theorem generate_live_events_termination_witness :
    (generate_live_events okFactory 2 0 0 clockEx oracleEx 3).isSome = true ∧
    clockEx 2 - 0 < ((3 : Int) : ℚ) := by
  constructor
  · exact (generate_live_events_termination okFactory 2 0 0 clockEx oracleEx).1
      (by decide) 3
  · refine (generate_live_events_termination okFactory 2 3 0 clockEx oracleEx).2
      (by decide) 2 (okFactory.create_event (some (clockEx 2)) (clockEx 2) (oracleEx 2)) ?_
    rw [generate_live_events, if_pos ?_]
    rw [List.all_eq_true]
    intro j hj
    have hj' : j < 3 := List.mem_range.mp hj
    interval_cases j <;> simp [live_should_stop, clockEx] <;> norm_num

/-! Section: C6: the ingestion boundary `POST /play` handler -/

/-- Claim C6: when the forward to Kafka succeeds, the handler responds
`201` with a body echoing the received event's `event_id`; when it fails
for any reason, the handler responds `500` with the fixed diagnostic
detail, and in both cases the forward is attempted exactly once (no
server-side retry). -/
theorem post_play_event_spec (event : PlayEventData)
    (produce : Nat → Except String Unit) :
    ((produce 0).isOk = true →
      post_play_event event produce =
        (.success 201 event.event_id "Play event received", 1)) ∧
    ((produce 0).isOk = false →
      post_play_event event produce =
        (.failure 500 "Failed to forward event to Kafka.", 1)) := by
  constructor
  · intro hok
    rw [post_play_event]
    cases h : produce 0 with
    | ok u => rfl
    | error e =>
      rw [h] at hok
      exact absurd hok (by simp [Except.isOk, Except.toBool])
  · intro hfail
    rw [post_play_event]
    cases h : produce 0 with
    | ok u =>
      rw [h] at hfail
      exact absurd hfail (by simp [Except.isOk, Except.toBool])
    | error e => rfl

/-- Witness for C6: a healthy producer yields the created
acknowledgement, a failing producer yields the fixed 500 response. -/
theorem post_play_event_spec_witness :
    post_play_event sampleEvent (fun _ => .ok ()) =
      (.success 201 sampleEvent.event_id "Play event received", 1) ∧
    post_play_event sampleEvent (fun _ => .error "kafka down") =
      (.failure 500 "Failed to forward event to Kafka.", 1) :=
  ⟨(post_play_event_spec sampleEvent (fun _ => .ok ())).1 rfl,
   (post_play_event_spec sampleEvent (fun _ => .error "kafka down")).2 rfl⟩

/-! Section: C7: the historical dispatcher's chunking -/

/-- Joining the `t` slices `l[i*cs : (i+1)*cs]` recovers `l` whenever
`t * cs` covers the whole list. -/
theorem range_map_slices_join {α : Type} (cs : Nat) :
    ∀ (t : Nat) (l : List α), l.length ≤ t * cs →
      ((List.range t).map fun i => (l.drop (i * cs)).take cs).flatten = l := by
  intro t
  induction t with
  | zero =>
    intro l hl
    have : l = [] := List.eq_nil_of_length_eq_zero (by omega)
    subst this
    rfl
  | succ t ih =>
    intro l hl
    rw [List.range_succ_eq_map, List.map_cons, List.map_map, List.flatten_cons]
    have hcomp : (((fun i => (l.drop (i * cs)).take cs) ∘ Nat.succ) : Nat → List α) =
        fun i => (((l.drop cs).drop (i * cs)).take cs) := by
      funext i
      simp only [Function.comp_apply, List.drop_drop]
      refine congrArg (fun k => (l.drop k).take cs) ?_
      simp only [Nat.succ_eq_add_one]
      ring
    have hexp : (t + 1) * cs = t * cs + cs := by ring
    rw [hcomp, ih (l.drop cs) (by rw [List.length_drop]; omega)]
    simp [List.take_append_drop]

/-- The ceil-divided chunk size covers the list: `n ≤ t * ⌈n / t⌉`. -/
theorem ceil_chunk_bound (n t : Nat) (ht : 0 < t) : n ≤ t * chunk_size n t := by
  rw [chunk_size]
  have h := Nat.div_add_mod (n + t - 1) t
  have hm : (n + t - 1) % t < t := Nat.mod_lt _ ht
  generalize t * ((n + t - 1) / t) = q at h ⊢
  omega

/-- Counterexample for C7 as stated: splitting five events across four
workers gives chunk sizes `[2, 2, 1, 0]` — chunk 2 is not the last chunk
(`2 + 1 < 4`) yet is strictly smaller than the common chunk size, so it
is not true that only the last chunk may be smaller. -/
theorem dispatcher_chunks_not_only_last_smaller :
    (dispatcher_chunks ([0, 1, 2, 3, 4] : List Nat) 4).map List.length =
      [2, 2, 1, 0] ∧
    ((dispatcher_chunks ([0, 1, 2, 3, 4] : List Nat) 4).getD 2 []).length <
      chunk_size 5 4 ∧
    2 + 1 < 4 := by
  refine ⟨?_, by decide, by decide⟩
  rfl

/-- Claim C7 (amended): the historical dispatcher splits the
materialized list into `threads` contiguous slices of
`chunk_size = ⌈len / threads⌉` events each, truncated at the end of the
list — so every chunk is full except possibly one partial chunk followed
by empty chunks — and the concatenation of the chunks in order is
exactly the original list, so every event is assigned to exactly one
worker and each worker's chunk preserves the generated order. -/
theorem dispatcher_chunks_spec {α : Type} (events : List α) (threads : Nat)
    (h : 0 < threads) :
    (dispatcher_chunks events threads).flatten = events ∧
    (dispatcher_chunks events threads).length = threads ∧
    ∀ i, i < threads →
      ((dispatcher_chunks events threads).getD i []).length =
        min (chunk_size events.length threads)
          (events.length - i * chunk_size events.length threads) := by
  refine ⟨?_, by simp [dispatcher_chunks], ?_⟩
  · exact range_map_slices_join (chunk_size events.length threads) threads events
      (ceil_chunk_bound events.length threads h)
  · intro i hi
    have hlt : i < (dispatcher_chunks events threads).length := by
      simpa [dispatcher_chunks] using hi
    rw [List.getD_eq_getElem _ _ hlt]
    simp [dispatcher_chunks]

/-- Witness for C7: four workers over five events — joining the chunks
recovers the list, and chunk 2 holds `min 2 1 = 1` event. -/
theorem dispatcher_chunks_spec_witness :
    (dispatcher_chunks ([10, 11, 12, 13, 14] : List Nat) 4).flatten =
      [10, 11, 12, 13, 14] ∧
    ((dispatcher_chunks ([10, 11, 12, 13, 14] : List Nat) 4).getD 2 []).length =
      min (chunk_size 5 4) (5 - 2 * chunk_size 5 4) :=
  ⟨(dispatcher_chunks_spec [10, 11, 12, 13, 14] 4 (by decide)).1,
   (dispatcher_chunks_spec [10, 11, 12, 13, 14] 4 (by decide)).2.2 2 (by decide)⟩

/-! Section: C8 and C10: `run_simulation_command` -/

/-- Counterexample for C8 as stated: in historical mode with both
datetime parameters present but the start string malformed, the run
still fails — `datetime.fromisoformat` raises and the `ValueError`
escapes the dispatcher — so the missing-parameters condition is not the
only dispatcher-level failure. -/
theorem run_simulation_parse_failure_aborts :
    run_simulation_command 4 10 true false (some "garbage")
      (some "2023-01-01T01:00:00") 10 0 fromisoEx okFactory 0 oracleEx =
      .raised (.valueError "Invalid isoformat string: garbage") ∧
    strTruthy (some "garbage") = true ∧
    strTruthy (some "2023-01-01T01:00:00") = true ∧
    SimOutcome.raised (.valueError "Invalid isoformat string: garbage") ≠
      .configError missingDatetimesMsg := by
  refine ⟨?_, rfl, rfl, by decide⟩
  rfl

/-- Claim C8 (amended): historical mode without a truthy start and end
aborts with the missing-parameters configuration error — for every
factory, parser and oracle, so before any event is generated or any
worker's chunk exists — and the missing-parameters conditions (no mode
selected, or historical mode without start/end) are the only
configuration errors the dispatcher itself reports; malformed datetime
strings and event-generation failures instead escape as unhandled
exceptions, likewise before any worker starts. -/
theorem run_simulation_config_errors (threads : Nat) (volume : Int)
    (historical live : Bool) (sd ed : Option String) (pr : ℚ) (ds : Int)
    (parse : String → Except PyError ℚ) (f : EventFactory) (now : ℚ)
    (oracle : Nat → RandOracle) :
    (historical = true → (strTruthy sd = false ∨ strTruthy ed = false) →
      run_simulation_command threads volume historical live sd ed pr ds
        parse f now oracle = .configError missingDatetimesMsg) ∧
    (∀ msg,
      run_simulation_command threads volume historical live sd ed pr ds
        parse f now oracle = .configError msg →
      msg = missingDatetimesMsg ∨ msg = noModeMsg) := by
  constructor
  · intro hh hmiss
    subst hh
    rw [run_simulation_command, if_pos rfl, if_pos]
    rcases hmiss with h | h <;> simp [h]
  · intro msg hmsg
    rw [run_simulation_command] at hmsg
    by_cases hh : historical = true
    · rw [if_pos hh] at hmsg
      by_cases hc : (!strTruthy sd || !strTruthy ed) = true
      · rw [if_pos hc] at hmsg
        exact Or.inl (SimOutcome.configError.inj hmsg).symm
      · rw [if_neg hc] at hmsg
        split at hmsg
        · exact SimOutcome.noConfusion hmsg
        · exact SimOutcome.noConfusion hmsg
        · split at hmsg
          · exact SimOutcome.noConfusion hmsg
          · exact SimOutcome.noConfusion hmsg
    · rw [if_neg hh] at hmsg
      by_cases hl : live = true
      · rw [if_pos hl] at hmsg
        exact SimOutcome.noConfusion hmsg
      · rw [if_neg hl] at hmsg
        exact Or.inr (SimOutcome.configError.inj hmsg).symm

/-- Witness for C8: a historical run with no datetimes yields the
missing-parameters error; a run with no mode yields the no-mode message,
which the second conjunct classifies. -/
theorem run_simulation_config_errors_witness :
    run_simulation_command 4 10 true false none none 10 0 fromisoEx
      okFactory 0 oracleEx = .configError missingDatetimesMsg ∧
    (noModeMsg = missingDatetimesMsg ∨ noModeMsg = noModeMsg) :=
  ⟨(run_simulation_config_errors 4 10 true false none none 10 0 fromisoEx
      okFactory 0 oracleEx).1 rfl (Or.inl rfl),
   (run_simulation_config_errors 4 10 false false none none 10 0 fromisoEx
      okFactory 0 oracleEx).2 noModeMsg rfl⟩

/-- Claim C10: in live mode every one of the `threads` workers runs the
live generator with `volume_per_minute = volume` and the given
`duration_seconds`, and `posting_rate` is read nowhere: two invocations
differing only in `posting_rate` coincide in every mode. -/
theorem run_simulation_live_spec (threads : Nat) (volume : Int)
    (sd ed : Option String) (pr pr' : ℚ) (ds : Int)
    (parse : String → Except PyError ℚ) (f : EventFactory) (now : ℚ)
    (oracle : Nat → RandOracle) :
    run_simulation_command threads volume false true sd ed pr ds parse f
      now oracle = .liveDone (List.replicate threads (volume, ds)) ∧
    ∀ historical live : Bool,
      run_simulation_command threads volume historical live sd ed pr ds
        parse f now oracle =
      run_simulation_command threads volume historical live sd ed pr' ds
        parse f now oracle :=
  ⟨rfl, fun _ _ => rfl⟩

end TopSongs
